import Mathlib

/-!
Shallow embedding of `python/gemini_adapter.py` (single-shot CLI adapter).

The adapter reads one JSON object from stdin, validates it, concatenates the
truthy `content` fields of `messages` into a prompt, delegates once to the
external `gemini_webapi` collaborator, and emits exactly one JSON object on
stdout (success, exit 0) or stderr (failure, exit 1).

Modelling choices:
* JSON values parsed by `json.loads` are modelled by `JValue` (numbers as
  `Int`; no claim involves fractional literals).  Objects carry their fields
  in insertion order, mirroring Python dicts; keys are distinct by dict
  construction, and lookups take the first match.
* Python truthiness (`if not psid`, `if msg.get('content')`, `psidts or None`)
  is `truthy`.
* `str(...)` on parsed JSON values is `pyStr` (`repr` for containers).
* `json.dumps(...)` with its defaults (`ensure_ascii=True`, separators
  `", "`/`": "`, insertion key order) is `dumps`.
* The external library call (client construction, `generate_content`,
  attribute extraction — the whole `try` body of `call_gemini`) is an abstract
  parameter `collab : CollabCall → CollabResult`; the instrumented runner
  also returns the list of collaborator invocations actually made.
* `json.loads` itself is external (Python stdlib); its outcome is the
  `InputStage` parameter: a decode failure carries the parser diagnostic
  `str(e)`, a read failure the exception type and message.
* An uncaught Python exception (traceback on stderr, no JSON object emitted)
  is the `Outcome.crash` constructor carrying the exception type name.
-/

namespace GeminiAdapter

/-- A JSON value as produced by `json.loads`. -/
inductive JValue where
  | null
  | bool (b : Bool)
  | num (n : Int)
  | str (s : String)
  | arr (elems : List JValue)
  | obj (fields : List (String × JValue))

/-- Python truthiness of a parsed JSON value (`bool(v)`). -/
def truthy : JValue → Bool
  | .null => false
  | .bool b => b
  | .num n => decide (n ≠ 0)
  | .str s => decide (s ≠ "")
  | .arr xs => !xs.isEmpty
  | .obj kvs => !kvs.isEmpty

/-- First-match association lookup; models `dict.get(key)` returning `None`
(absent) via `Option`. Python dicts have distinct keys, so first-match agrees
with dict lookup. -/
def objLookup : List (String × JValue) → String → Option JValue
  | [], _ => none
  | (k, v) :: rest, key => if k = key then some v else objLookup rest key

/-- `params.get(key)`: absent keys give Python `None`. -/
def paramGet (kvs : List (String × JValue)) (key : String) : JValue :=
  (objLookup kvs key).getD .null

/-- `params.get('model', 'unspecified')`: the default applies only when the
key is absent (an explicit `null` is returned as-is). -/
def modelGet (kvs : List (String × JValue)) : JValue :=
  (objLookup kvs "model").getD (.str "unspecified")

/-- Lowercase hexadecimal digit. -/
def hexDigit (n : Nat) : Char :=
  if n < 10 then Char.ofNat (48 + n) else Char.ofNat (87 + n)

/-- Two lowercase hex digits. -/
def hex2 (n : Nat) : String :=
  String.mk [hexDigit (n / 16 % 16), hexDigit (n % 16)]

/-- Four lowercase hex digits. -/
def hex4 (n : Nat) : String :=
  String.mk [hexDigit (n / 4096 % 16), hexDigit (n / 256 % 16),
             hexDigit (n / 16 % 16), hexDigit (n % 16)]

/-- The double-quote character. -/
def dquote : Char := Char.ofNat 34

/-- The single-quote character. -/
def squote : Char := Char.ofNat 39

/-- The backslash character. -/
def bslash : Char := Char.ofNat 92

/-- One backslash as a string. -/
def bs : String := bslash.toString

/-- Escape one character inside a Python string `repr` using quote
character `q`.  Printable characters are kept literal. -/
def reprEscapeChar (q : Char) (c : Char) : String :=
  if c = bslash then bs ++ bs
  else if c = q then bs ++ q.toString
  else if c = Char.ofNat 10 then bs ++ "n"
  else if c = Char.ofNat 13 then bs ++ "r"
  else if c = Char.ofNat 9 then bs ++ "t"
  else if c.toNat < 32 ∨ c.toNat = 127 then bs ++ "x" ++ hex2 c.toNat
  else c.toString

/-- Python `repr` of a string: single quotes unless the string contains a
single quote and no double quote. -/
def strRepr (s : String) : String :=
  let q : Char := if s.contains squote ∧ ¬ s.contains dquote then dquote else squote
  q.toString ++ String.join (s.toList.map (reprEscapeChar q)) ++ q.toString

mutual

/-- Python `repr` of a parsed JSON value. -/
def pyRepr : JValue → String
  | .null => "None"
  | .bool true => "True"
  | .bool false => "False"
  | .num n => toString n
  | .str s => strRepr s
  | .arr xs => "[" ++ pyReprElems xs ++ "]"
  | .obj kvs => "\x7b" ++ pyReprFields kvs ++ "\x7d"

/-- `repr` of list elements, comma-separated. -/
def pyReprElems : List JValue → String
  | [] => ""
  | [x] => pyRepr x
  | x :: y :: rest => pyRepr x ++ ", " ++ pyReprElems (y :: rest)

/-- `repr` of dict items, comma-separated. -/
def pyReprFields : List (String × JValue) → String
  | [] => ""
  | [(k, v)] => strRepr k ++ ": " ++ pyRepr v
  | (k, v) :: p :: rest => strRepr k ++ ": " ++ pyRepr v ++ ", " ++ pyReprFields (p :: rest)

end

/-- Python `str(...)` on a parsed JSON value: identity on strings, `repr`
otherwise (`str` and `repr` agree on `None`, booleans, ints, lists, dicts). -/
def pyStr : JValue → String
  | .str s => s
  | v => pyRepr v

/-- A `\uXXXX` escape, lowercase hex as emitted by `json.dumps`. -/
def jsonHexEscape (n : Nat) : String := bs ++ "u" ++ hex4 n

/-- Escape one character as `json.dumps` does with `ensure_ascii=True`
(code points above U+FFFF become surrogate pairs). -/
def jsonEscapeChar (c : Char) : String :=
  if c = dquote then bs ++ dquote.toString
  else if c = bslash then bs ++ bs
  else if c = Char.ofNat 10 then bs ++ "n"
  else if c = Char.ofNat 13 then bs ++ "r"
  else if c = Char.ofNat 9 then bs ++ "t"
  else if c = Char.ofNat 8 then bs ++ "b"
  else if c = Char.ofNat 12 then bs ++ "f"
  else if c.toNat < 32 then jsonHexEscape c.toNat
  else if c.toNat ≤ 126 then c.toString
  else if c.toNat ≤ 65535 then jsonHexEscape c.toNat
  else
    jsonHexEscape (55296 + (c.toNat - 65536) / 1024) ++
      jsonHexEscape (56320 + (c.toNat - 65536) % 1024)

/-- A JSON string literal as written by `json.dumps`. -/
def jsonQuote (s : String) : String :=
  dquote.toString ++ String.join (s.toList.map jsonEscapeChar) ++ dquote.toString

mutual

/-- `json.dumps` with default options: `ensure_ascii=True`, separators
`", "` and `": "`, keys in insertion order. -/
def dumps : JValue → String
  | .null => "null"
  | .bool true => "true"
  | .bool false => "false"
  | .num n => toString n
  | .str s => jsonQuote s
  | .arr xs => "[" ++ dumpsElems xs ++ "]"
  | .obj kvs => "\x7b" ++ dumpsFields kvs ++ "\x7d"

/-- Serialised array elements, `", "`-separated. -/
def dumpsElems : List JValue → String
  | [] => ""
  | [x] => dumps x
  | x :: y :: rest => dumps x ++ ", " ++ dumpsElems (y :: rest)

/-- Serialised object fields, `", "`-separated, `": "` after each key. -/
def dumpsFields : List (String × JValue) → String
  | [] => ""
  | [(k, v)] => jsonQuote k ++ ": " ++ dumps v
  | (k, v) :: p :: rest => jsonQuote k ++ ": " ++ dumps v ++ ", " ++ dumpsFields (p :: rest)

end

/-- Which standard stream an emission goes to. -/
inductive StdStream where
  | stdout
  | stderr
deriving DecidableEq

/-- One JSON object written by the process, with the exit code that follows
(`print(json.dumps(result))` then `sys.exit(code)`).  `line` below is the
serialised text actually written. -/
structure Emission where
  stream : StdStream
  payload : JValue
  exitCode : Nat

/-- The serialised JSON line of an emission. -/
def Emission.line (e : Emission) : String := dumps e.payload

/-- Observable end state of the process: either exactly one JSON object is
emitted, or an uncaught Python exception of the given type name terminates
the process (traceback, no JSON object on either stream). -/
inductive Outcome where
  | emit (e : Emission)
  | crash (excType : String)

/-- The failure result dict
`{"success": False, "error": {"type": ty, "message": msg}}`. -/
def failurePayload (ty msg : String) : JValue :=
  .obj [("success", .bool false),
        ("error", .obj [("type", .str ty), ("message", .str msg)])]

/-- The success result dict
`{"success": True, "text": text, "model_used": modelUsed}`. -/
def successPayload (text modelUsed : JValue) : JValue :=
  .obj [("success", .bool true), ("text", text), ("model_used", modelUsed)]

/-- `psidts or None`: a falsy secondary credential is passed as `None`. -/
def pyOrNone (v : JValue) : Option JValue :=
  if truthy v then some v else none

/-- The argument tuple with which the external collaborator (the `try` body
of `call_gemini`: `GeminiClient(...)` plus `generate_content`) is invoked. -/
structure CollabCall where
  Secure_1PSID : JValue
  Secure_1PSIDTS : Option JValue
  prompt : JValue
  model : JValue

/-- What the external collaborator does on one invocation: either a response
whose `.text` is `text`, with `modelAttr` the optional `.model` attribute
(queried via `getattr(response, 'model', ...)`), or a raised exception with
runtime type name `excType` and `str(e) = excMessage`. -/
inductive CollabResult where
  | success (text : JValue) (modelAttr : Option JValue)
  | raised (excType excMessage : String)

/-- The dict returned by `call_gemini`: the success dict or the caught
failure dict (its `result.get("success")` truthiness is the constructor). -/
inductive CallResult where
  | ok (text modelUsed : JValue)
  | err (ty msg : String)

/-- The `CollabCall` record built at the call site: `Secure_1PSID=psid`,
`Secure_1PSIDTS=psidts or None`, the prompt and the model name. -/
def mkCall (secure_psid secure_psidts user_prompt model_name : JValue) : CollabCall :=
  ⟨secure_psid, pyOrNone secure_psidts, user_prompt, model_name⟩

/-- `call_gemini`: invoke the collaborator once; on success extract `.text`
and `getattr(response, 'model', model_name)`; on any exception return the
failure dict with the exception type name and message.  No retry. -/
def call_gemini (collab : CollabCall → CollabResult)
    (secure_psid secure_psidts user_prompt model_name : JValue) : CallResult :=
  match collab (mkCall secure_psid secure_psidts user_prompt model_name) with
  | .success text modelAttr => .ok text (modelAttr.getD model_name)
  | .raised ty msg => .err ty msg

/-- `msg.get('content')` for a message dict. -/
def contentOf (fields : List (String × JValue)) : JValue :=
  paramGet fields "content"

/-- The prompt-construction loop:
`for msg in messages: if msg.get('content'): prompt_parts.append(str(msg['content']))`.
A non-dict element makes `msg.get` raise `AttributeError` (uncaught). -/
def promptLoop (prompt_parts : List String) : List JValue → Except String (List String)
  | [] => .ok prompt_parts
  | msg :: rest =>
    match msg with
    | .obj fields =>
      if truthy (contentOf fields) then
        promptLoop (prompt_parts ++ [pyStr (contentOf fields)]) rest
      else
        promptLoop prompt_parts rest
    | _ => .error "AttributeError"

/-- `for msg in messages` over a truthy Python value: lists yield elements,
strings yield characters, dicts yield keys; numbers and booleans are not
iterable (`TypeError`, uncaught). -/
def pyIter : JValue → Except String (List JValue)
  | .arr xs => .ok xs
  | .str s => .ok (s.toList.map fun c => .str c.toString)
  | .obj kvs => .ok (kvs.map fun kv => .str kv.1)
  | _ => .error "TypeError"

/-- Outcome of the stdin-reading stage (`sys.stdin.read()` then
`json.loads`), which precedes everything else: an I/O failure, a JSON
decode failure carrying the parser diagnostic `str(e)`, or the parsed value. -/
inductive InputStage where
  | readError (ty msg : String)
  | parseError (diag : String)
  | parsed (params : JValue)

/-- The tail of the pipeline from the non-empty-prompt check on: reject an
empty prompt, otherwise run `call_gemini` once and dispatch the result dict
to stdout/exit 0 or stderr/exit 1.  The second component records the
collaborator invocations made. -/
def runCall (kvs : List (String × JValue)) (prompt : String)
    (collab : CollabCall → CollabResult) : Outcome × List CollabCall :=
  if prompt.isEmpty then
    (.emit ⟨.stderr,
      failurePayload "ValueError" "Could not construct a non-empty prompt from messages.", 1⟩, [])
  else
    match call_gemini collab (paramGet kvs "psid") (paramGet kvs "psidts")
        (.str prompt) (modelGet kvs) with
    | .ok text modelUsed =>
      (.emit ⟨.stdout, successPayload text modelUsed, 0⟩,
       [mkCall (paramGet kvs "psid") (paramGet kvs "psidts") (.str prompt) (modelGet kvs)])
    | .err ty msg =>
      (.emit ⟨.stderr, failurePayload ty msg, 1⟩,
       [mkCall (paramGet kvs "psid") (paramGet kvs "psidts") (.str prompt) (modelGet kvs)])

/-- Prompt construction from the validated `messages` value: iterate it,
run the accumulator loop, then `"\n".join(prompt_parts)`.  An error is an
uncaught Python exception type name. -/
def buildPrompt (messages : JValue) : Except String String :=
  match pyIter messages with
  | .error exc => .error exc
  | .ok msgs =>
    match promptLoop [] msgs with
    | .error exc => .error exc
    | .ok prompt_parts => .ok (String.intercalate "\n" prompt_parts)

/-- Dispatch on prompt construction: an uncaught exception crashes the
process; otherwise the run continues with the built prompt. -/
def runBuilt (kvs : List (String × JValue)) (built : Except String String)
    (collab : CollabCall → CollabResult) : Outcome × List CollabCall :=
  match built with
  | .error exc => (.crash exc, [])
  | .ok prompt => runCall kvs prompt collab

/-- The whole script after the import guard, instrumented with the list of
collaborator invocations: stdin stage, parameter extraction (`params.get`
raises `AttributeError` if `params` is not a dict), the two validation
checks, prompt construction, then `runCall`. -/
def runAdapterInstr (input : InputStage) (collab : CollabCall → CollabResult) :
    Outcome × List CollabCall :=
  match input with
  | .readError ty msg =>
    (.emit ⟨.stderr, failurePayload ty ("Error reading stdin: " ++ msg), 1⟩, [])
  | .parseError diag =>
    (.emit ⟨.stderr,
      failurePayload "JSONDecodeError" ("Failed to decode stdin JSON: " ++ diag), 1⟩, [])
  | .parsed (.obj kvs) =>
    if truthy (paramGet kvs "psid") then
      if truthy (paramGet kvs "messages") then
        runBuilt kvs (buildPrompt (paramGet kvs "messages")) collab
      else
        (.emit ⟨.stderr,
          failurePayload "ValueError" "Missing or empty 'messages' array in input parameters.", 1⟩, [])
    else
      (.emit ⟨.stderr,
        failurePayload "ValueError" "Missing 'psid' in input parameters.", 1⟩, [])
  | .parsed _ => (.crash "AttributeError", [])

/-- Observable outcome of one process run. -/
def runAdapter (input : InputStage) (collab : CollabCall → CollabResult) : Outcome :=
  (runAdapterInstr input collab).1

/-- The collaborator invocations made during one process run. -/
def collabCalls (input : InputStage) (collab : CollabCall → CollabResult) :
    List CollabCall :=
  (runAdapterInstr input collab).2

/-- Specification-level description of one message's contribution to the
prompt: the string form of its `content` field when that field is truthy,
nothing otherwise.  Stated from the spec's words for comparison with the
loop `promptLoop` translated from the source. -/
def msgContentSpec : JValue → Option String
  | .obj fields =>
    if truthy (contentOf fields) then some (pyStr (contentOf fields)) else none
  | _ => none

/-- A collaborator stub that raises `AuthError("bad cookie")`. -/
def authFailStub : CollabCall → CollabResult :=
  fun _ => .raised "AuthError" "bad cookie"

/-- A collaborator stub returning text `"hello"` and reporting no model. -/
def helloStub : CollabCall → CollabResult :=
  fun _ => .success (.str "hello") none

/-- The accumulator loop equals, on message dicts, the order-preserving
filter-map of each message's truthy content contribution. -/
theorem promptLoop_eq_filterMap (msgs : List JValue) (acc : List String)
    (hmaps : ∀ m ∈ msgs, ∃ fields, m = .obj fields) :
    promptLoop acc msgs = .ok (acc ++ msgs.filterMap msgContentSpec) := by
  induction msgs generalizing acc with
  | nil => simp [promptLoop]
  | cons m rest ih =>
    obtain ⟨fields, rfl⟩ := hmaps m (List.mem_cons_self m rest)
    have hrest : ∀ x ∈ rest, ∃ fields, x = JValue.obj fields :=
      fun x hx => hmaps x (List.mem_cons_of_mem _ hx)
    cases h : truthy (contentOf fields) with
    | true =>
      simp [promptLoop, h, msgContentSpec, ih _ hrest]
    | false =>
      simp [promptLoop, h, msgContentSpec, ih _ hrest]

/-- C5: for every non-empty sequence of message dicts, the built prompt is
the newline-join, in input order, of the string forms of the truthy
`content` fields (messages lacking content skipped); in particular
`[{"content": "a"}, {}, {"content": "b"}]` builds `"a\nb"`. -/
theorem C5_prompt_newline_join (msgs : List JValue)
    (_hne : msgs ≠ [])
    (hmaps : ∀ m ∈ msgs, ∃ fields, m = .obj fields) :
    (∃ prompt_parts, promptLoop [] msgs = .ok prompt_parts ∧
      String.intercalate "\n" prompt_parts =
        String.intercalate "\n" (msgs.filterMap msgContentSpec)) ∧
    promptLoop []
        [JValue.obj [("content", .str "a")], .obj [], .obj [("content", .str "b")]]
      = .ok ["a", "b"] ∧
    String.intercalate "\n" ["a", "b"] = "a" ++ "\n" ++ "b" :=
  ⟨⟨msgs.filterMap msgContentSpec, by
      simpa using promptLoop_eq_filterMap msgs [] hmaps, rfl⟩, rfl, rfl⟩

/-- C5 witness: the general part evaluated at
`[{"content": "a"}, {}, {"content": "b"}]`. -/
theorem C5_prompt_newline_join_witness :
    (∃ prompt_parts,
      promptLoop []
          [JValue.obj [("content", .str "a")], .obj [], .obj [("content", .str "b")]]
        = .ok prompt_parts ∧
      String.intercalate "\n" prompt_parts =
        String.intercalate "\n"
          (([JValue.obj [("content", .str "a")], .obj [], .obj [("content", .str "b")]].filterMap
            msgContentSpec))) ∧
    promptLoop []
        [JValue.obj [("content", .str "a")], .obj [], .obj [("content", .str "b")]]
      = .ok ["a", "b"] ∧
    String.intercalate "\n" ["a", "b"] = "a" ++ "\n" ++ "b" :=
  C5_prompt_newline_join
    [JValue.obj [("content", .str "a")], .obj [], .obj [("content", .str "b")]]
    (List.cons_ne_nil _ _)
    (by
      intro m hm
      simp only [List.mem_cons, List.not_mem_nil, or_false] at hm
      rcases hm with rfl | rfl | rfl
      · exact ⟨_, rfl⟩
      · exact ⟨_, rfl⟩
      · exact ⟨_, rfl⟩)

/-- C8 counterexample: a message whose `content` is the number `0` (present,
non-null, non-empty) contributes nothing to the prompt parts — the loop
yields `[]`, not `["0"]` as the claim's "0 contributes" reading requires;
likewise `false` contributes nothing. -/
theorem C8_counterexample_zero_skipped :
    promptLoop [] [JValue.obj [("content", .num 0)]] = .ok [] ∧
    promptLoop [] [JValue.obj [("content", .bool false)]] = .ok [] ∧
    (Except.ok ([] : List String) : Except String (List String)) ≠ .ok ["0"] :=
  ⟨rfl, rfl, by simp⟩

/-- C8 (amended): a present `content` value contributes its string form
exactly when it is truthy; present but falsy values (`0`, `false`, empty
string, `null`) are skipped like absent ones. -/
theorem C8_amended_truthy_content (msgs : List JValue) (prompt_parts : List String)
    (hmaps : ∀ m ∈ msgs, ∃ fields, m = .obj fields)
    (hrun : promptLoop [] msgs = .ok prompt_parts) :
    prompt_parts = msgs.filterMap msgContentSpec := by
  rw [promptLoop_eq_filterMap msgs [] hmaps] at hrun
  simpa using (Except.ok.inj hrun).symm

/-- C8 witness: `[{"content": 5}, {"content": 0}]` contributes exactly
`["5"]`. -/
theorem C8_amended_truthy_content_witness :
    (["5"] : List String) =
      ([JValue.obj [("content", .num 5)], .obj [("content", .num 0)]].filterMap
        msgContentSpec) :=
  C8_amended_truthy_content
    [JValue.obj [("content", .num 5)], .obj [("content", .num 0)]] ["5"]
    (by
      intro m hm
      simp only [List.mem_cons, List.not_mem_nil, or_false] at hm
      rcases hm with rfl | rfl
      · exact ⟨_, rfl⟩
      · exact ⟨_, rfl⟩)
    rfl

/-- C10: a request that parses, passes the `psid` and `messages` checks, but
has a non-mapping element in `messages` (here `[42]`, or `messages` a
non-empty string) makes `msg.get` raise an uncaught `AttributeError`: the
process crashes with a traceback, no JSON object is emitted on either
stream, and the collaborator is never invoked. -/
theorem C10_nonmapping_message_crashes (collab : CollabCall → CollabResult) :
    runAdapterInstr
        (.parsed (.obj [("psid", .str "x"), ("messages", .arr [.num 42])])) collab
      = (.crash "AttributeError", []) ∧
    runAdapterInstr
        (.parsed (.obj [("psid", .str "x"), ("messages", .str "hi")])) collab
      = (.crash "AttributeError", []) ∧
    ∀ e : Emission, (Outcome.crash "AttributeError") ≠ .emit e :=
  ⟨rfl, rfl, fun _ h => Outcome.noConfusion h⟩

/-- C7: whenever `json.loads` fails, the process emits the
`JSONDecodeError` failure object on stderr — its message is the fixed
lead text followed by the parser's diagnostic — exits 1, and this happens
before any field access and before any collaborator invocation (the
outcome is independent of the collaborator and the call list is empty). -/
theorem C7_invalid_json_short_circuits (diag : String)
    (collab : CollabCall → CollabResult) :
    runAdapterInstr (.parseError diag) collab =
      (.emit ⟨.stderr,
        failurePayload "JSONDecodeError" ("Failed to decode stdin JSON: " ++ diag), 1⟩,
       []) :=
  rfl

/-- C7 witness: a typical `json.loads` diagnostic for truncated input, with
a collaborator stub that would succeed. -/
theorem C7_invalid_json_short_circuits_witness :
    runAdapterInstr (.parseError "Expecting value: line 1 column 1 (char 0)") helloStub =
      (.emit ⟨.stderr,
        failurePayload "JSONDecodeError"
          ("Failed to decode stdin JSON: " ++ "Expecting value: line 1 column 1 (char 0)"), 1⟩,
       []) :=
  C7_invalid_json_short_circuits "Expecting value: line 1 column 1 (char 0)" helloStub

/-- C10 witness: `messages = [42]` under a collaborator stub that would
succeed. -/
theorem C10_nonmapping_message_crashes_witness :
    runAdapterInstr
        (.parsed (.obj [("psid", .str "x"), ("messages", .arr [.num 42])])) helloStub
      = (.crash "AttributeError", []) :=
  (C10_nonmapping_message_crashes helloStub).1

/-- C4: a falsy (absent, empty, null) `psid` yields the `ValueError`
"Missing 'psid'" failure on stderr with exit 1; a truthy `psid` with falsy
(absent or empty) `messages` yields the `ValueError` "Missing or empty
'messages'" failure; in both cases the collaborator invocation list is
empty and the outcome does not depend on the collaborator. -/
theorem C4_validation_short_circuits (kvs : List (String × JValue))
    (collab : CollabCall → CollabResult) :
    (truthy (paramGet kvs "psid") = false →
      runAdapterInstr (.parsed (.obj kvs)) collab =
        (.emit ⟨.stderr,
          failurePayload "ValueError" "Missing 'psid' in input parameters.", 1⟩, [])) ∧
    (truthy (paramGet kvs "psid") = true →
      truthy (paramGet kvs "messages") = false →
      runAdapterInstr (.parsed (.obj kvs)) collab =
        (.emit ⟨.stderr,
          failurePayload "ValueError"
            "Missing or empty 'messages' array in input parameters.", 1⟩, [])) := by
  constructor
  · intro h
    simp [runAdapterInstr, h]
  · intro h1 h2
    simp [runAdapterInstr, h1, h2]

/-- C4 witness: an empty request misses `psid`; a request with only a
`psid` misses `messages`. -/
theorem C4_validation_short_circuits_witness :
    runAdapterInstr (.parsed (.obj [])) authFailStub =
      (.emit ⟨.stderr,
        failurePayload "ValueError" "Missing 'psid' in input parameters.", 1⟩, []) ∧
    runAdapterInstr (.parsed (.obj [("psid", .str "p"), ("messages", .arr [])]))
        authFailStub =
      (.emit ⟨.stderr,
        failurePayload "ValueError"
          "Missing or empty 'messages' array in input parameters.", 1⟩, []) :=
  ⟨(C4_validation_short_circuits [] authFailStub).1 rfl,
   (C4_validation_short_circuits [("psid", .str "p"), ("messages", .arr [])]
      authFailStub).2 rfl rfl⟩

/-- C6: when the joined prompt is empty (for example `messages = [{}]`),
the process emits the `ValueError` "Could not construct a non-empty
prompt" failure on stderr, exits 1, and the collaborator invocation list
is empty (no external call, outcome independent of the collaborator). -/
theorem C6_empty_prompt_rejected (kvs : List (String × JValue)) (msgs : List JValue)
    (prompt_parts : List String) (collab : CollabCall → CollabResult)
    (hpsid : truthy (paramGet kvs "psid") = true)
    (hmsgs : truthy (paramGet kvs "messages") = true)
    (hiter : pyIter (paramGet kvs "messages") = .ok msgs)
    (hloop : promptLoop [] msgs = .ok prompt_parts)
    (hempty : String.intercalate "\n" prompt_parts = "") :
    runAdapterInstr (.parsed (.obj kvs)) collab =
      (.emit ⟨.stderr,
        failurePayload "ValueError"
          "Could not construct a non-empty prompt from messages.", 1⟩, []) := by
  simp [runAdapterInstr, hpsid, hmsgs, runBuilt, buildPrompt, hiter, hloop, runCall,
        hempty, String.isEmpty_iff]

/-- C6 witness: `psid = "p"`, `messages = [{}]` — no message has content,
the prompt is empty, the collaborator (here one that would succeed) is not
consulted. -/
theorem C6_empty_prompt_rejected_witness :
    runAdapterInstr (.parsed (.obj [("psid", .str "p"), ("messages", .arr [.obj []])]))
        helloStub =
      (.emit ⟨.stderr,
        failurePayload "ValueError"
          "Could not construct a non-empty prompt from messages.", 1⟩, []) :=
  C6_empty_prompt_rejected [("psid", .str "p"), ("messages", .arr [.obj []])]
    [.obj []] [] helloStub rfl rfl rfl rfl rfl

/-- C2: whenever the request reaches the external call and the collaborator
raises an exception with runtime type name `ty` and message `msg`, the
process emits `{"success": false, "error": {"type": ty, "message": msg}}`
on stderr, exits 1, and invokes the collaborator exactly once (no retry). -/
theorem C2_collab_exception_reported (kvs : List (String × JValue))
    (msgs : List JValue) (prompt_parts : List String)
    (collab : CollabCall → CollabResult) (ty msg : String)
    (hpsid : truthy (paramGet kvs "psid") = true)
    (hmsgs : truthy (paramGet kvs "messages") = true)
    (hiter : pyIter (paramGet kvs "messages") = .ok msgs)
    (hloop : promptLoop [] msgs = .ok prompt_parts)
    (hne : String.intercalate "\n" prompt_parts ≠ "")
    (hc : collab (mkCall (paramGet kvs "psid") (paramGet kvs "psidts")
            (.str (String.intercalate "\n" prompt_parts)) (modelGet kvs))
          = .raised ty msg) :
    runAdapterInstr (.parsed (.obj kvs)) collab =
      (.emit ⟨.stderr, failurePayload ty msg, 1⟩,
       [mkCall (paramGet kvs "psid") (paramGet kvs "psidts")
          (.str (String.intercalate "\n" prompt_parts)) (modelGet kvs)]) := by
  simp [runAdapterInstr, hpsid, hmsgs, runBuilt, buildPrompt, hiter, hloop, runCall,
        call_gemini, hc, String.isEmpty_iff, hne]

/-- C2 witness: `psid = "p"`, `messages = [{"content": "hi"}]` and the
`AuthError("bad cookie")` stub give exactly the claimed stderr line. -/
theorem C2_collab_exception_reported_witness :
    runAdapterInstr
        (.parsed (.obj [("psid", .str "p"), ("messages", .arr [.obj [("content", .str "hi")]])]))
        authFailStub =
      (.emit ⟨.stderr, failurePayload "AuthError" "bad cookie", 1⟩,
       [mkCall (.str "p") .null (.str "hi") (.str "unspecified")]) ∧
    Emission.line ⟨.stderr, failurePayload "AuthError" "bad cookie", 1⟩ =
      "\x7b\"success\": false, \"error\": \x7b\"type\": \"AuthError\", \"message\": \"bad cookie\"\x7d\x7d" :=
  ⟨C2_collab_exception_reported
      [("psid", .str "p"), ("messages", .arr [.obj [("content", .str "hi")]])]
      [.obj [("content", .str "hi")]] ["hi"] authFailStub "AuthError" "bad cookie"
      rfl rfl rfl rfl (by decide) rfl,
   rfl⟩

/-- C3: whenever the request reaches the external call and the collaborator
succeeds with response text `text` and optional reported model `modelAttr`,
the process emits `{"success": true, "text": text, "model_used": ...}` on
stdout and exits 0, where `model_used` is the reported model if present and
otherwise the originally requested model name (`params.get('model',
'unspecified')`); the collaborator is invoked exactly once. -/
theorem C3_success_reported (kvs : List (String × JValue))
    (msgs : List JValue) (prompt_parts : List String)
    (collab : CollabCall → CollabResult) (text : JValue) (modelAttr : Option JValue)
    (hpsid : truthy (paramGet kvs "psid") = true)
    (hmsgs : truthy (paramGet kvs "messages") = true)
    (hiter : pyIter (paramGet kvs "messages") = .ok msgs)
    (hloop : promptLoop [] msgs = .ok prompt_parts)
    (hne : String.intercalate "\n" prompt_parts ≠ "")
    (hc : collab (mkCall (paramGet kvs "psid") (paramGet kvs "psidts")
            (.str (String.intercalate "\n" prompt_parts)) (modelGet kvs))
          = .success text modelAttr) :
    runAdapterInstr (.parsed (.obj kvs)) collab =
      (.emit ⟨.stdout, successPayload text (modelAttr.getD (modelGet kvs)), 0⟩,
       [mkCall (paramGet kvs "psid") (paramGet kvs "psidts")
          (.str (String.intercalate "\n" prompt_parts)) (modelGet kvs)]) := by
  simp [runAdapterInstr, hpsid, hmsgs, runBuilt, buildPrompt, hiter, hloop, runCall,
        call_gemini, hc, String.isEmpty_iff, hne]

/-- C3 witness: `psid = "p"`, `model = "gemini-pro"`,
`messages = [{"content": "hi"}]` and the `"hello"`-with-no-model stub give
exactly the claimed stdout line. -/
theorem C3_success_reported_witness :
    runAdapterInstr
        (.parsed (.obj [("psid", .str "p"), ("model", .str "gemini-pro"),
                        ("messages", .arr [.obj [("content", .str "hi")]])]))
        helloStub =
      (.emit ⟨.stdout, successPayload (.str "hello") (.str "gemini-pro"), 0⟩,
       [mkCall (.str "p") .null (.str "hi") (.str "gemini-pro")]) ∧
    Emission.line ⟨.stdout, successPayload (.str "hello") (.str "gemini-pro"), 0⟩ =
      "\x7b\"success\": true, \"text\": \"hello\", \"model_used\": \"gemini-pro\"\x7d" :=
  ⟨C3_success_reported
      [("psid", .str "p"), ("model", .str "gemini-pro"),
       ("messages", .arr [.obj [("content", .str "hi")]])]
      [.obj [("content", .str "hi")]] ["hi"] helloStub (.str "hello") none
      rfl rfl rfl rfl (by decide) rfl,
   rfl⟩

/-- Prepending a binding for a different key does not change a lookup. -/
theorem objLookup_cons_ne (k key : String) (v : JValue)
    (kvs : List (String × JValue)) (h : k ≠ key) :
    objLookup ((k, v) :: kvs) key = objLookup kvs key := by
  simp [objLookup, h]

/-- `runCall` only sees `psid`, `psidts or None`, and the model default. -/
theorem runCall_congr (kvs₁ kvs₂ : List (String × JValue)) (prompt : String)
    (collab : CollabCall → CollabResult)
    (h1 : paramGet kvs₁ "psid" = paramGet kvs₂ "psid")
    (h2 : pyOrNone (paramGet kvs₁ "psidts") = pyOrNone (paramGet kvs₂ "psidts"))
    (h3 : modelGet kvs₁ = modelGet kvs₂) :
    runCall kvs₁ prompt collab = runCall kvs₂ prompt collab := by
  simp only [runCall, call_gemini, mkCall, h1, h2, h3]

/-- The whole run only sees the four extracted parameters, the secondary
credential only through `psidts or None`. -/
theorem runAdapterInstr_obj_congr (kvs₁ kvs₂ : List (String × JValue))
    (collab : CollabCall → CollabResult)
    (h1 : paramGet kvs₁ "psid" = paramGet kvs₂ "psid")
    (h2 : pyOrNone (paramGet kvs₁ "psidts") = pyOrNone (paramGet kvs₂ "psidts"))
    (h3 : modelGet kvs₁ = modelGet kvs₂)
    (h4 : paramGet kvs₁ "messages" = paramGet kvs₂ "messages") :
    runAdapterInstr (.parsed (.obj kvs₁)) collab
      = runAdapterInstr (.parsed (.obj kvs₂)) collab := by
  have hrb : runBuilt kvs₁ (buildPrompt (paramGet kvs₂ "messages")) collab
      = runBuilt kvs₂ (buildPrompt (paramGet kvs₂ "messages")) collab := by
    cases buildPrompt (paramGet kvs₂ "messages") with
    | error e => rfl
    | ok prompt => exact runCall_congr kvs₁ kvs₂ prompt collab h1 h2 h3
  simp only [runAdapterInstr, h1, h4, hrb]

/-- When the request carries no usable secondary credential, every
collaborator invocation made receives `Secure_1PSIDTS = None`. -/
theorem collabCalls_no_psidts (kvs : List (String × JValue))
    (collab : CollabCall → CollabResult)
    (hnone : pyOrNone (paramGet kvs "psidts") = none) :
    ∀ call ∈ collabCalls (.parsed (.obj kvs)) collab,
      call.Secure_1PSIDTS = none := by
  intro call hcall
  simp only [collabCalls, runAdapterInstr] at hcall
  by_cases hb : truthy (paramGet kvs "psid") = true
  · rw [if_pos hb] at hcall
    by_cases hb2 : truthy (paramGet kvs "messages") = true
    · rw [if_pos hb2] at hcall
      cases hB : buildPrompt (paramGet kvs "messages") with
      | error e => rw [hB] at hcall; simp [runBuilt] at hcall
      | ok prompt =>
        rw [hB] at hcall
        simp only [runBuilt, runCall] at hcall
        by_cases hp : prompt.isEmpty = true
        · rw [if_pos hp] at hcall; simp at hcall
        · rw [if_neg hp] at hcall
          cases hres : call_gemini collab (paramGet kvs "psid") (paramGet kvs "psidts")
              (.str prompt) (modelGet kvs) with
          | ok t mu =>
            rw [hres] at hcall
            simp only [List.mem_singleton] at hcall
            subst hcall
            simpa [mkCall] using hnone
          | err ty msg =>
            rw [hres] at hcall
            simp only [List.mem_singleton] at hcall
            subst hcall
            simpa [mkCall] using hnone
    · rw [if_neg hb2] at hcall; simp at hcall
  · rw [if_neg hb] at hcall; simp at hcall

/-- C9: a request whose `psidts` is present but falsy (empty string, null)
behaves exactly like the same request with `psidts` genuinely absent: the
whole instrumented run (outcome and collaborator-call list) is equal, and
every collaborator invocation carries no secondary credential.  Absent or
empty `psidts` is never an error. -/
theorem C9_psidts_absent_empty_equivalent (kvs : List (String × JValue))
    (v : JValue) (collab : CollabCall → CollabResult)
    (habsent : objLookup kvs "psidts" = none)
    (hfalsy : truthy v = false) :
    runAdapterInstr (.parsed (.obj (("psidts", v) :: kvs))) collab
      = runAdapterInstr (.parsed (.obj kvs)) collab ∧
    ∀ call ∈ collabCalls (.parsed (.obj kvs)) collab,
      call.Secure_1PSIDTS = none := by
  have hget : paramGet kvs "psidts" = .null := by simp [paramGet, habsent]
  have hnone : pyOrNone (paramGet kvs "psidts") = none := by
    rw [hget]; rfl
  constructor
  · refine runAdapterInstr_obj_congr _ _ collab ?_ ?_ ?_ ?_
    · simp [paramGet, objLookup_cons_ne "psidts" "psid" v kvs (by decide)]
    · have hv : paramGet (("psidts", v) :: kvs) "psidts" = v := by
        simp [paramGet, objLookup]
      rw [hv, hnone]
      simp [pyOrNone, hfalsy]
    · simp [modelGet, objLookup_cons_ne "psidts" "model" v kvs (by decide)]
    · simp [paramGet, objLookup_cons_ne "psidts" "messages" v kvs (by decide)]
  · exact collabCalls_no_psidts kvs collab hnone

/-- C9 witness: with `psid = "p"`, one content message and the hello stub,
the run with `psidts = ""` equals the run without `psidts`, and the single
collaborator call carries no secondary credential. -/
theorem C9_psidts_absent_empty_equivalent_witness :
    runAdapterInstr
        (.parsed (.obj [("psidts", .str ""), ("psid", .str "p"),
                        ("messages", .arr [.obj [("content", .str "hi")]])]))
        helloStub
      = runAdapterInstr
          (.parsed (.obj [("psid", .str "p"),
                          ("messages", .arr [.obj [("content", .str "hi")]])]))
          helloStub ∧
    ∀ call ∈ collabCalls
        (.parsed (.obj [("psid", .str "p"),
                        ("messages", .arr [.obj [("content", .str "hi")]])]))
        helloStub,
      call.Secure_1PSIDTS = none :=
  C9_psidts_absent_empty_equivalent
    [("psid", .str "p"), ("messages", .arr [.obj [("content", .str "hi")]])]
    (.str "") helloStub rfl rfl

/-- C1: for every well-formed request (non-empty string `psid`, non-empty
`messages` list of message dicts) and every collaborator behaviour, the run
terminates in exactly one emission: one JSON object on exactly one stream,
the success variant on stdout exactly when the exit code is 0, the failure
variant on stderr with exit code 1 otherwise — never both streams, never
neither, never a crash. -/
theorem C1_wellformed_emits_exactly_one (kvs : List (String × JValue)) (s : String)
    (msgs : List JValue) (collab : CollabCall → CollabResult)
    (hpsid : objLookup kvs "psid" = some (.str s)) (hs : s ≠ "")
    (hmsgs : objLookup kvs "messages" = some (.arr msgs)) (hne : msgs ≠ [])
    (hmaps : ∀ m ∈ msgs, ∃ fields, m = .obj fields) :
    ∃ e : Emission, runAdapter (.parsed (.obj kvs)) collab = .emit e ∧
      ((e.stream = .stdout ∧ e.exitCode = 0 ∧ ∃ t mu, e.payload = successPayload t mu) ∨
       (e.stream = .stderr ∧ e.exitCode = 1 ∧ ∃ ty m, e.payload = failurePayload ty m)) ∧
      (e.exitCode = 0 ↔ e.stream = .stdout ∧ ∃ t mu, e.payload = successPayload t mu) := by
  have h1 : truthy (paramGet kvs "psid") = true := by
    simp [paramGet, hpsid, truthy, hs]
  have h2 : truthy (paramGet kvs "messages") = true := by
    cases msgs with
    | nil => exact absurd rfl hne
    | cons a l => simp [paramGet, hmsgs, truthy]
  have hB : buildPrompt (paramGet kvs "messages")
      = .ok (String.intercalate "\n" (msgs.filterMap msgContentSpec)) := by
    simp [paramGet, hmsgs, buildPrompt, pyIter, promptLoop_eq_filterMap msgs [] hmaps]
  set prompt := String.intercalate "\n" (msgs.filterMap msgContentSpec) with hpdef
  by_cases hpe : prompt.isEmpty = true
  · refine ⟨⟨.stderr,
      failurePayload "ValueError" "Could not construct a non-empty prompt from messages.",
      1⟩, ?_, ?_, ?_⟩
    · simp [runAdapter, runAdapterInstr, h1, h2, hB, runBuilt, runCall, hpe]
    · exact Or.inr ⟨rfl, rfl, _, _, rfl⟩
    · exact ⟨fun h => absurd h (by decide), fun h => absurd h.1 (by decide)⟩
  · cases hres : collab (mkCall (paramGet kvs "psid") (paramGet kvs "psidts")
        (.str prompt) (modelGet kvs)) with
    | success t ma =>
      refine ⟨⟨.stdout, successPayload t (ma.getD (modelGet kvs)), 0⟩, ?_, ?_, ?_⟩
      · simp [runAdapter, runAdapterInstr, h1, h2, hB, runBuilt, runCall, hpe,
              call_gemini, hres]
      · exact Or.inl ⟨rfl, rfl, t, _, rfl⟩
      · exact ⟨fun _ => ⟨rfl, t, _, rfl⟩, fun _ => rfl⟩
    | raised ty m =>
      refine ⟨⟨.stderr, failurePayload ty m, 1⟩, ?_, ?_, ?_⟩
      · simp [runAdapter, runAdapterInstr, h1, h2, hB, runBuilt, runCall, hpe,
              call_gemini, hres]
      · exact Or.inr ⟨rfl, rfl, ty, m, rfl⟩
      · exact ⟨fun h => by simp at h, fun h => by simpa using h.1⟩

/-- C1 witness: the well-formed request `psid = "p"`,
`messages = [{"content": "hi"}]` under the hello stub. -/
theorem C1_wellformed_emits_exactly_one_witness :
    ∃ e : Emission,
      runAdapter
          (.parsed (.obj [("psid", .str "p"),
                          ("messages", .arr [.obj [("content", .str "hi")]])]))
          helloStub = .emit e ∧
      ((e.stream = .stdout ∧ e.exitCode = 0 ∧ ∃ t mu, e.payload = successPayload t mu) ∨
       (e.stream = .stderr ∧ e.exitCode = 1 ∧ ∃ ty m, e.payload = failurePayload ty m)) ∧
      (e.exitCode = 0 ↔ e.stream = .stdout ∧ ∃ t mu, e.payload = successPayload t mu) :=
  C1_wellformed_emits_exactly_one
    [("psid", .str "p"), ("messages", .arr [.obj [("content", .str "hi")]])]
    "p" [.obj [("content", .str "hi")]] helloStub
    rfl (by decide) rfl (List.cons_ne_nil _ _)
    (by
      intro m hm
      simp only [List.mem_singleton] at hm
      subst hm
      exact ⟨_, rfl⟩)

end GeminiAdapter
